import Mathlib

/-!
Verification of the Wealth-Arc session/token lifecycle core.

The definitions below are a shallow embedding of the TypeScript source:
the two storage tables (user_sessions_wa, refresh_tokens_wa, plus the
distinct legacy refresh_tokens table that some queries target), the JWT
layer, and the operations of TokenService, AuthService, SessionManager and
the HTTP controllers, translated statement by statement.  Timestamps are
naturals, UUID generation is a fresh-id counter, and a database transaction
is modelled by returning the pre-call state whenever the source rolls back.
-/

namespace WealthArc

/-! ## Data model -/

/-- Device descriptor as passed to session creation (types/auth.ts DeviceInfo). -/
structure DeviceInfo where
  type : String
  name : String
  browser : String
  os : String
  ip : Option String
deriving Repr, DecidableEq

/-- One row of the user_sessions_wa table (db/migrations/create_sessions.sql). -/
structure Session where
  id : Nat
  userId : Nat
  tokenId : Nat
  deviceType : String
  deviceName : String
  browser : String
  os : String
  lastActive : Nat
  lastIp : Option String
  createdAt : Nat
  isMarkedForDeletion : Bool
  markedAt : Option Nat
  activityCount : Nat
deriving Repr, DecidableEq

/-- One row of a refresh-token table (db/migrations/create_refresh_tokens.sql). -/
structure RefreshTokenRow where
  id : Nat
  userId : Nat
  tokenId : Nat
  expiresAt : Nat
  isRevoked : Bool
  createdAt : Nat
deriving Repr, DecidableEq

/-- One row of user_of_wa, restricted to the fields the login path reads.
bcrypt hashing is an external collaborator; verifyPassword compares the
submitted password against the stored credential directly. -/
structure UserRow where
  id : Nat
  username : String
  passwordHash : String
  isActive : Bool
deriving Repr, DecidableEq

/-- The shared storage: the users table, the session ledger
(user_sessions_wa), the refresh-token store (refresh_tokens_wa), the
separate legacy refresh_tokens table that a few queries name, a fresh-id
supply standing for uuidv4, and the clock NOW(). -/
structure Storage where
  users : List UserRow
  sessions : List Session
  refreshTokens : List RefreshTokenRow
  refreshTokensLegacy : List RefreshTokenRow
  nextId : Nat
  now : Nat
deriving Repr, DecidableEq

/-- AUTH_CONFIG (config/auth.ts), lifetimes in clock units. -/
structure AuthConfig where
  jwtSecret : Nat
  tokenExpiration : Nat
  refreshTokenExpiration : Nat
  maxSessionsPerUser : Nat
deriving Repr, DecidableEq

/-! ## JWT layer (jsonwebtoken library, external collaborator)

jwt.sign embeds the payload, an absolute expiry and the signing secret;
jwt.verify checks the secret and then the expiry.  In the jsonwebtoken
library TokenExpiredError is a subclass of JsonWebTokenError, so an
instanceof JsonWebTokenError test is true for expired tokens as well;
the two instanceof tests are modelled accordingly. -/

/-- The identity claims embedded in a token: userId and tokenId. -/
structure TokenPayload where
  userId : Nat
  tokenId : Nat
deriving Repr, DecidableEq

/-- A signed token value. -/
structure Jwt where
  payload : TokenPayload
  exp : Nat
  secret : Nat
deriving Repr, DecidableEq

/-- The errors jwt.verify can throw on the inputs this system builds. -/
inductive JwtError where
  | jsonWebTokenError
  | tokenExpiredError
deriving Repr, DecidableEq

/-- instanceof jwt.JsonWebTokenError: true for every jwt error, because
TokenExpiredError extends JsonWebTokenError in the jsonwebtoken library. -/
def JwtError.isJsonWebTokenError : JwtError → Bool := fun _ => true

/-- instanceof jwt.TokenExpiredError. -/
def JwtError.isTokenExpiredError : JwtError → Bool
  | .tokenExpiredError => true
  | _ => false

/-- jwt.sign(payload, secret, expiresIn) at clock time now. -/
def jwtSign (payload : TokenPayload) (secret now expiresIn : Nat) : Jwt :=
  { payload := payload, exp := now + expiresIn, secret := secret }

/-- jwt.verify(token, secret) at clock time now: signature first, then expiry. -/
def jwtVerify (t : Jwt) (secret now : Nat) : Except JwtError TokenPayload :=
  if t.secret ≠ secret then .error .jsonWebTokenError
  else if t.exp ≤ now then .error .tokenExpiredError
  else .ok t.payload

/-! ## Error taxonomy (services/errors.ts, config/auth.ts) -/

/-- The AuthError / MaxSessionsError values the auth core throws,
identified by their message. -/
inductive AuthErr where
  | invalidToken
  | tokenExpired
  | sessionNotFound
  | invalidRefreshToken
  | failedToRotateTokens
  | refreshTokenExpired
  | invalidCredentials
  | maxSessions (sessions : List Session) (userId : Nat)
  | revokeVerifyFailed
deriving Repr, DecidableEq

/-- TokenResponse returned by token issuance (types/auth.ts). -/
structure TokenResponse where
  token : Jwt
  refreshToken : Jwt
  sessionId : Nat
deriving Repr, DecidableEq

/-! ## TokenService (config/auth.ts) -/

namespace TokenService

/-- The row selected by ORDER BY last_active ASC LIMIT 1: the first row
carrying the minimal last_active value. -/
def pickLru (rows : List Session) : Option Session :=
  rows.foldl
    (fun acc r =>
      match acc with
      | none => some r
      | some b => if r.lastActive < b.lastActive then some r else some b)
    none

/-- TokenService.enforceSessionLimit: counts every session row of the user
(marked rows included, the query has no filter) and, at or over
MAX_SESSIONS_PER_USER, deletes the least-recently-active session row. -/
def enforceSessionLimit (cfg : AuthConfig) (s : Storage) (userId : Nat) : Storage :=
  let mine := s.sessions.filter (fun r => r.userId == userId)
  if cfg.maxSessionsPerUser ≤ mine.length then
    match pickLru mine with
    | none => s
    | some victim => { s with sessions := s.sessions.filter (fun r => r.id ≠ victim.id) }
  else s

/-- TokenService.createSession: runs enforceSessionLimit, draws a tokenId
(uuidv4 when none is supplied) and inserts one session row. -/
def createSession (cfg : AuthConfig) (s : Storage) (userId : Nat) (d : DeviceInfo)
    (suppliedTokenId : Option Nat) : Nat × Storage :=
  let s1 := enforceSessionLimit cfg s userId
  let sessionTokenId := suppliedTokenId.getD s1.nextId
  let rowId := if suppliedTokenId.isNone then s1.nextId + 1 else s1.nextId
  let row : Session :=
    { id := rowId, userId := userId, tokenId := sessionTokenId,
      deviceType := d.type, deviceName := d.name, browser := d.browser, os := d.os,
      lastActive := s1.now, lastIp := d.ip, createdAt := s1.now,
      isMarkedForDeletion := false, markedAt := none, activityCount := 0 }
  (sessionTokenId, { s1 with sessions := s1.sessions ++ [row], nextId := rowId + 1 })

/-- TokenService.generateTokens: creates a session, signs the access and
refresh tokens over {userId, tokenId}, and inserts one refresh_tokens_wa
row with the refresh-token lifetime. -/
def generateTokens (cfg : AuthConfig) (s : Storage) (userId : Nat) (d : DeviceInfo) :
    TokenResponse × Storage :=
  let r := createSession cfg s userId d none
  let tokenId := r.1
  let s1 := r.2
  let accessToken := jwtSign ⟨userId, tokenId⟩ cfg.jwtSecret s1.now cfg.tokenExpiration
  let refreshToken := jwtSign ⟨userId, tokenId⟩ cfg.jwtSecret s1.now cfg.refreshTokenExpiration
  let rtRow : RefreshTokenRow :=
    { id := s1.nextId, userId := userId, tokenId := tokenId,
      expiresAt := s1.now + cfg.refreshTokenExpiration, isRevoked := false,
      createdAt := s1.now }
  ({ token := accessToken, refreshToken := refreshToken, sessionId := tokenId },
   { s1 with refreshTokens := s1.refreshTokens ++ [rtRow], nextId := s1.nextId + 1 })

/-- TokenService.updateSessionActivity: UPDATE user_sessions_wa SET
last_active = NOW() WHERE token_id matches.  Only last_active is written;
a database failure is caught and logged inside the method, leaving the
state unchanged and raising nothing. -/
def updateSessionActivity (s : Storage) (tokenId : Nat) (dbFail : Bool) : Storage :=
  if dbFail then s
  else { s with sessions := s.sessions.map (fun (r : Session) =>
          if r.tokenId == tokenId then { r with lastActive := s.now } else r) }

/-- TokenService.verifyToken: jwt.verify, then the session lookup by
token_id and user_id, then the activity bump.  The catch tests
instanceof JsonWebTokenError before instanceof TokenExpiredError; since
TokenExpiredError is a subclass, every jwt error takes the first branch
and the TokenExpired branch is unreachable. -/
def verifyToken (cfg : AuthConfig) (s : Storage) (t : Jwt) (activityDbFail : Bool) :
    Except AuthErr TokenPayload × Storage :=
  match jwtVerify t cfg.jwtSecret s.now with
  | .error e =>
    if e.isJsonWebTokenError then (.error .invalidToken, s)
    else if e.isTokenExpiredError then (.error .tokenExpired, s)
    else (.error .invalidToken, s)
  | .ok decoded =>
    match s.sessions.find? (fun r => r.tokenId == decoded.tokenId && r.userId == decoded.userId) with
    | none => (.error .sessionNotFound, s)
    | some _ => (.ok decoded, updateSessionActivity s decoded.tokenId activityDbFail)

/-- TokenService.isRefreshTokenValid: decodes the token and checks a
refresh_tokens_wa row with that token_id exists that is not revoked and
not past expiry; any verification error yields false. -/
def isRefreshTokenValid (cfg : AuthConfig) (s : Storage) (t : Jwt) : Bool :=
  match jwtVerify t cfg.jwtSecret s.now with
  | .error _ => false
  | .ok decoded =>
    s.refreshTokens.any (fun r =>
      r.tokenId == decoded.tokenId && !r.isRevoked && decide (s.now < r.expiresAt))

/-- The UPDATE that revokes every refresh_tokens_wa row with the given token_id. -/
def revokeRefreshRows (s : Storage) (tokenId : Nat) : Storage :=
  { s with refreshTokens := s.refreshTokens.map (fun (r : RefreshTokenRow) =>
      if r.tokenId == tokenId then { r with isRevoked := true } else r) }

/-- TokenService.rotateTokens: inside one transaction, verify the token,
check the stored row, look up the session device metadata, generate a
fresh pair (which inserts a new session and refresh row), and revoke the
old refresh rows.  Any error rolls the state back; jwt errors are not
AuthError so they surface as the generic rotation failure. -/
def rotateTokens (cfg : AuthConfig) (s : Storage) (t : Jwt) :
    Except AuthErr TokenResponse × Storage :=
  match jwtVerify t cfg.jwtSecret s.now with
  | .error _ => (.error .failedToRotateTokens, s)
  | .ok decoded =>
    if !isRefreshTokenValid cfg s t then (.error .invalidRefreshToken, s)
    else
      match s.sessions.find? (fun r => r.tokenId == decoded.tokenId) with
      | none => (.error .sessionNotFound, s)
      | some sess =>
        let d : DeviceInfo :=
          { type := sess.deviceType, name := sess.deviceName,
            browser := sess.browser, os := sess.os, ip := sess.lastIp }
        let g := generateTokens cfg s decoded.userId d
        (.ok g.1, revokeRefreshRows g.2 decoded.tokenId)

/-- TokenService.refreshAccessToken: the refresh entry point; checks the
stored row first and then delegates to rotateTokens.  The TokenExpiredError
conversion in its catch never fires because isRefreshTokenValid returns
false instead of throwing and rotateTokens throws AuthError only. -/
def refreshAccessToken (cfg : AuthConfig) (s : Storage) (t : Jwt) :
    Except AuthErr TokenResponse × Storage :=
  if !isRefreshTokenValid cfg s t then (.error .invalidRefreshToken, s)
  else rotateTokens cfg s t

/-- TokenService.isSessionValid: a user_sessions_wa row with the token_id exists. -/
def isSessionValid (s : Storage) (tokenId : Nat) : Bool :=
  s.sessions.any (fun r => r.tokenId == tokenId)

/-- TokenService.getActiveSessions: count of the user's rows with
is_marked_for_deletion false. -/
def getActiveSessions (s : Storage) (userId : Nat) : Nat :=
  (s.sessions.filter (fun r => r.userId == userId && !r.isMarkedForDeletion)).length

/-- The UPDATE run by logout: revoke a refresh row when both the user id
and the token id match. -/
def revokeIfUserToken (userId tokenId : Nat) (r : RefreshTokenRow) : RefreshTokenRow :=
  if r.userId == userId && r.tokenId == tokenId then { r with isRevoked := true } else r

/-- TokenService.logout: one transaction that deletes the user's session
rows with the token_id, revokes the matching refresh_tokens_wa rows, and
then re-reads the first refresh row with that token_id; if none exists or
it is unrevoked the transaction throws and rolls back. -/
def logout (cfg : AuthConfig) (s : Storage) (userId tokenId : Nat) :
    Except AuthErr Unit × Storage :=
  let s1 := { s with sessions :=
      s.sessions.filter (fun r => !(r.userId == userId && r.tokenId == tokenId)) }
  let s2 := { s1 with refreshTokens :=
      s1.refreshTokens.map (revokeIfUserToken userId tokenId) }
  match s2.refreshTokens.find? (fun r => r.tokenId == tokenId) with
  | some r => if r.isRevoked then (.ok (), s2) else (.error .revokeVerifyFailed, s)
  | none => (.error .revokeVerifyFailed, s)

/-- TokenService.handleExpiredToken: marks the session, revokes the
refresh rows, and hard-deletes the session when no valid refresh row
remains.  (The only call site guards it behind an instanceof
jwt.TokenExpiredError test that can never succeed, so it is dead code.) -/
def handleExpiredToken (s : Storage) (tokenId : Nat) : Storage :=
  let s1 := { s with sessions := s.sessions.map (fun (r : Session) =>
      if r.tokenId == tokenId
      then { r with isMarkedForDeletion := true, markedAt := some s.now } else r) }
  let s2 := { s1 with refreshTokens := s1.refreshTokens.map (fun (r : RefreshTokenRow) =>
      if r.tokenId == tokenId then { r with isRevoked := true } else r) }
  let stillValid := s2.refreshTokens.any (fun r =>
      r.tokenId == tokenId && !r.isRevoked && decide (s.now < r.expiresAt))
  if !stillValid then
    { s2 with sessions := s2.sessions.filter (fun r => !(r.tokenId == tokenId)) }
  else s2

end TokenService

/-! ## Middleware (middleware/auth.ts) -/

/-- authenticateToken: delegates to verifyToken.  The errors reaching its
catch are the AuthError values verifyToken produced, never a raw
jwt.TokenExpiredError, so the branch calling handleExpiredToken is
unreachable and every failure is rethrown as the invalid-token error. -/
def authenticateToken (cfg : AuthConfig) (s : Storage) (t : Jwt) (activityDbFail : Bool) :
    Except AuthErr TokenPayload × Storage :=
  match TokenService.verifyToken cfg s t activityDbFail with
  | (.ok decoded, s1) => (.ok decoded, s1)
  | (.error _, s1) => (.error .invalidToken, s1)

/-! ## Credential store and AuthService (models/User.ts, services/auth.ts) -/

namespace UserModel

/-- UserModel.findByUsername: first user row with the username. -/
def findByUsername (s : Storage) (username : String) : Option UserRow :=
  s.users.find? (fun u => u.username == username)

/-- UserModel.verifyPassword, with bcrypt abstracted to direct comparison. -/
def verifyPassword (u : UserRow) (password : String) : Bool :=
  password == u.passwordHash

end UserModel

namespace AuthService

/-- AuthService.login: credential checks, then the non-marked session
count against MAX_SESSIONS_PER_USER; at or over the limit it throws
MaxSessionsError carrying an empty sessions array (the source passes []
with the comment that only the count is needed), otherwise it issues a
token pair via generateTokens. -/
def login (cfg : AuthConfig) (s : Storage) (username password : String) (d : DeviceInfo) :
    Except AuthErr TokenResponse × Storage :=
  match UserModel.findByUsername s username with
  | none => (.error .invalidCredentials, s)
  | some user =>
    if !user.isActive then (.error .invalidCredentials, s)
    else if !UserModel.verifyPassword user password then (.error .invalidCredentials, s)
    else if cfg.maxSessionsPerUser ≤ TokenService.getActiveSessions s user.id then
      (.error (.maxSessions [] user.id), s)
    else
      let g := TokenService.generateTokens cfg s user.id d
      (.ok g.1, g.2)

end AuthService

/-! ## SessionManager (services/SessionManager.ts) -/

/-- The counters cleanup reports. -/
structure CleanupMetrics where
  expiredTokens : Nat
  expiredSessions : Nat
  inactiveSessions : Nat
  markedSessions : Nat
deriving Repr, DecidableEq

namespace SessionManager

/-- SessionManager.cleanup: one transaction that (1) deletes the session
rows marked for deletion, (2) revokes the unrevoked refresh rows past
expiry, (3) deletes the session rows whose token_id matches a revoked or
expired refresh row, and returns the three row counts. -/
def cleanup (s : Storage) : CleanupMetrics × Storage :=
  let markedCount := (s.sessions.filter (fun r => r.isMarkedForDeletion)).length
  let sessions1 := s.sessions.filter (fun r => !r.isMarkedForDeletion)
  let expiredCount := (s.refreshTokens.filter (fun (r : RefreshTokenRow) =>
      decide (r.expiresAt < s.now) && !r.isRevoked)).length
  let rt1 := s.refreshTokens.map (fun (r : RefreshTokenRow) =>
      if decide (r.expiresAt < s.now) && !r.isRevoked then { r with isRevoked := true } else r)
  let bad := fun (tid : Nat) => rt1.any (fun (r : RefreshTokenRow) =>
      r.tokenId == tid && (r.isRevoked || decide (r.expiresAt < s.now)))
  let expiredSessCount := (sessions1.filter (fun r => bad r.tokenId)).length
  let sessions2 := sessions1.filter (fun r => !bad r.tokenId)
  ({ expiredTokens := expiredCount, expiredSessions := expiredSessCount,
     inactiveSessions := 0, markedSessions := markedCount },
   { s with sessions := sessions2, refreshTokens := rt1 })

/-- SessionManager.markSessionForDeletion: soft-deletes the row matching
both session id and user id. -/
def markSessionForDeletion (s : Storage) (sessionId userId : Nat) : Storage :=
  { s with sessions := s.sessions.map (fun (r : Session) =>
      if r.id == sessionId && r.userId == userId
      then { r with isMarkedForDeletion := true, markedAt := some s.now } else r) }

end SessionManager

/-! ## Pre-login termination (controllers/session.ts) and logout handler -/

/-- The response shape of terminatePreLoginSession. -/
structure TerminationResult where
  success : Bool
  status : Nat
  remainingSessions : Option Nat
deriving Repr, DecidableEq

/-- terminatePreLoginSession: locks and reads the session row by id and
user id, deletes refresh rows from the legacy refresh_tokens table (not
refresh_tokens_wa, where the login path stores them), hard-deletes the
session row, and reports the remaining row count of the user. -/
def terminatePreLoginSession (s : Storage) (userId sessionId : Nat) :
    TerminationResult × Storage :=
  match s.sessions.find? (fun r => r.id == sessionId && r.userId == userId) with
  | none => ({ success := false, status := 404, remainingSessions := none }, s)
  | some sess =>
    let s1 := { s with refreshTokensLegacy :=
        s.refreshTokensLegacy.filter (fun r => !(r.tokenId == sess.tokenId)) }
    let s2 := { s1 with sessions :=
        s1.sessions.filter (fun r => !(r.id == sessionId && r.userId == userId)) }
    let count := (s2.sessions.filter (fun r => r.userId == userId)).length
    ({ success := true, status := 200, remainingSessions := some count }, s2)

/-- The observable outcome of the logout HTTP handler. -/
structure LogoutResponse where
  status : Nat
  success : Bool
  alertLogged : Bool
deriving Repr, DecidableEq

/-- handleLogout (controllers/auth.ts): runs TokenService.logout, then the
defensive double-check.  It re-reads session existence by token_id; the
refresh-token side of the check passes the tokenId string where a refresh
JWT is expected, so jwt.verify throws on it and isRefreshTokenValid is
always false there.  A failed double-check is logged as an internal error
while the response still reports success; a thrown logout is a 500. -/
def handleLogout (cfg : AuthConfig) (s : Storage) (userId tokenId : Nat) :
    LogoutResponse × Storage :=
  match TokenService.logout cfg s userId tokenId with
  | (.error _, s1) => ({ status := 500, success := false, alertLogged := false }, s1)
  | (.ok _, s1) =>
    let sessionStillExists := TokenService.isSessionValid s1 tokenId
    let tokenStillValid := false
    ({ status := 200, success := true,
       alertLogged := sessionStillExists || tokenStillValid }, s1)

/-- The session row generateTokens inserts, phrased against the state left
by the limit check. -/
def issuedSessionRow (cfg : AuthConfig) (s : Storage) (userId : Nat) (d : DeviceInfo) :
    Session :=
  let E := TokenService.enforceSessionLimit cfg s userId
  { id := E.nextId + 1, userId := userId, tokenId := E.nextId,
    deviceType := d.type, deviceName := d.name, browser := d.browser, os := d.os,
    lastActive := E.now, lastIp := d.ip, createdAt := E.now,
    isMarkedForDeletion := false, markedAt := none, activityCount := 0 }

/-- The refresh row generateTokens inserts. -/
def issuedRefreshRow (cfg : AuthConfig) (s : Storage) (userId : Nat) : RefreshTokenRow :=
  let E := TokenService.enforceSessionLimit cfg s userId
  { id := E.nextId + 2, userId := userId, tokenId := E.nextId,
    expiresAt := E.now + cfg.refreshTokenExpiration, isRevoked := false,
    createdAt := E.now }

/-- Decidable equality for Except results, so that concrete runs of the
operations can be checked by evaluation. -/
instance {ε α : Type} [DecidableEq ε] [DecidableEq α] : DecidableEq (Except ε α) := fun x y =>
  match x, y with
  | .ok a, .ok b =>
    if h : a = b then isTrue (h ▸ rfl) else isFalse (fun he => h (Except.ok.inj he))
  | .error a, .error b =>
    if h : a = b then isTrue (h ▸ rfl) else isFalse (fun he => h (Except.error.inj he))
  | .ok _, .error _ => isFalse (fun he => Except.noConfusion he)
  | .error _, .ok _ => isFalse (fun he => Except.noConfusion he)

/-! ## Concrete fixtures used to evaluate the scenarios -/

/-- A configuration with the default MAX_SESSIONS_PER_USER = 3, a one-hour
access-token lifetime and a seven-day refresh-token lifetime (in seconds). -/
def cfgW : AuthConfig :=
  { jwtSecret := 99, tokenExpiration := 3600, refreshTokenExpiration := 604800,
    maxSessionsPerUser := 3 }

/-- A sample device descriptor. -/
def devW : DeviceInfo :=
  { type := "desktop", name := "dev", browser := "firefox", os := "linux", ip := none }

/-- A session row owned by uid with the given id, tokenId and last_active. -/
def mkSess (i uid tid la : Nat) : Session :=
  { id := i, userId := uid, tokenId := tid, deviceType := "desktop", deviceName := "dev",
    browser := "firefox", os := "linux", lastActive := la, lastIp := none, createdAt := 0,
    isMarkedForDeletion := false, markedAt := none, activityCount := 0 }

/-- A refresh-token row. -/
def mkRt (i uid tid expi : Nat) (rev : Bool) : RefreshTokenRow :=
  { id := i, userId := uid, tokenId := tid, expiresAt := expi, isRevoked := rev,
    createdAt := 0 }

/-- A user at the session limit: three unmarked sessions, clock at 1000. -/
def stateC1 : Storage :=
  { users := [], sessions := [mkSess 1 7 11 10, mkSess 2 7 12 20, mkSess 3 7 13 30],
    refreshTokens := [], refreshTokensLegacy := [], nextId := 100, now := 1000 }

/-- The active user record used by the login scenarios. -/
def userW : UserRow := { id := 7, username := "u", passwordHash := "pw", isActive := true }

/-- Valid credentials and three unmarked sessions: the Scenario A state. -/
def stateC3 : Storage :=
  { users := [userW], sessions := [mkSess 1 7 11 10, mkSess 2 7 12 20, mkSess 3 7 13 30],
    refreshTokens := [], refreshTokensLegacy := [], nextId := 100, now := 1000 }

/-- One session and its refresh row, clock at 1000. -/
def stateC4 : Storage :=
  { users := [], sessions := [mkSess 1 7 11 10],
    refreshTokens := [mkRt 5 7 11 2000 false], refreshTokensLegacy := [],
    nextId := 100, now := 1000 }

/-- A correctly signed access token whose embedded expiry (50) has passed. -/
def expiredTokW : Jwt := { payload := { userId := 7, tokenId := 11 }, exp := 50, secret := 99 }

/-- One session (tokenId 11) with its unrevoked refresh row. -/
def stateC7 : Storage :=
  { users := [], sessions := [mkSess 10 7 11 10],
    refreshTokens := [mkRt 5 7 11 604800 false], refreshTokensLegacy := [],
    nextId := 100, now := 1000 }

/-- One session (id 10, tokenId 20) whose refresh row lives in
refresh_tokens_wa, as the login path stores it; the legacy table is empty. -/
def stateC8 : Storage :=
  { users := [], sessions := [mkSess 10 7 20 10],
    refreshTokens := [mkRt 5 7 20 604800 false], refreshTokensLegacy := [],
    nextId := 100, now := 1000 }

/-- An empty storage used for the issuance round trip. -/
def stateC9 : Storage :=
  { users := [], sessions := [], refreshTokens := [], refreshTokensLegacy := [],
    nextId := 100, now := 1000 }

/-- A user at the limit, every session with a live refresh row. -/
def stateC10 : Storage :=
  { users := [],
    sessions := [mkSess 1 7 11 10, mkSess 2 7 12 20, mkSess 3 7 13 30],
    refreshTokens := [mkRt 5 7 11 604800 false, mkRt 6 7 12 604800 false,
                      mkRt 4 7 13 604800 false],
    refreshTokensLegacy := [], nextId := 100, now := 1000 }

/-- The still-valid refresh token of session 1 (tokenId 11). -/
def rotTokW : Jwt := { payload := { userId := 7, tokenId := 11 }, exp := 604800, secret := 99 }

/-- One user session below the limit with a live refresh row. -/
def stateRot : Storage :=
  { users := [], sessions := [mkSess 1 7 11 10],
    refreshTokens := [mkRt 5 7 11 604800 false], refreshTokensLegacy := [],
    nextId := 100, now := 1000 }

/-- A storage whose only refresh row for tokenId 11 is already revoked. -/
def stateC2dead : Storage :=
  { users := [], sessions := [mkSess 1 7 11 10],
    refreshTokens := [mkRt 5 7 11 604800 true], refreshTokensLegacy := [],
    nextId := 100, now := 1000 }

/-- The state after a successful rotation in stateRot, observed later (clock 2000). -/
def rotNext : Storage :=
  { (TokenService.refreshAccessToken cfgW stateRot rotTokW).2 with now := 2000 }

/-- A state with work for every cleanup phase: a marked session, a session
whose refresh token is expired but unrevoked, and a live session. -/
def stateC5 : Storage :=
  { users := [],
    sessions := [{ mkSess 1 7 20 10 with isMarkedForDeletion := true, markedAt := some 5 },
                 mkSess 2 7 21 20, mkSess 3 7 22 30],
    refreshTokens := [mkRt 5 7 21 500 false, mkRt 6 7 22 604800 false],
    refreshTokensLegacy := [], nextId := 100, now := 1000 }

/-! ## Theorems settling the claims -/

/-- A successful jwt.verify returns exactly the embedded payload. -/
theorem jwtVerify_ok_payload {t : Jwt} {secret now : Nat} {p : TokenPayload}
    (h : jwtVerify t secret now = .ok p) : p = t.payload := by
  unfold jwtVerify at h
  split at h
  · exact absurd h (by simp)
  · split at h
    · exact absurd h (by simp)
    · exact (Except.ok.inj h).symm

/-- enforceSessionLimit only ever touches the session table: the clock and
the fresh-id supply are unchanged. -/
theorem enforceSessionLimit_now_nextId (cfg : AuthConfig) (s : Storage) (u : Nat) :
    (TokenService.enforceSessionLimit cfg s u).now = s.now ∧
    (TokenService.enforceSessionLimit cfg s u).nextId = s.nextId := by
  simp only [TokenService.enforceSessionLimit]
  split
  · split <;> simp
  · simp

/-- Below the limit, enforceSessionLimit leaves the storage untouched. -/
theorem enforceSessionLimit_under (cfg : AuthConfig) (s : Storage) (u : Nat)
    (h : (s.sessions.filter (fun r => r.userId == u)).length < cfg.maxSessionsPerUser) :
    TokenService.enforceSessionLimit cfg s u = s := by
  simp only [TokenService.enforceSessionLimit]
  rw [if_neg (by omega)]

/-- Claim C1 (code_bug evaluation): with MAX_SESSIONS_PER_USER = 3 and a
user holding exactly 3 session rows, the limit check run before session
creation is not read-only: enforceSessionLimit silently deletes the
least-recently-active session row (id 1) and createSession then proceeds
to insert a new row, instead of reporting the limit without mutating the
session table. -/
theorem limit_check_evicts_lru_session :
    TokenService.enforceSessionLimit cfgW stateC1 7
      = { stateC1 with sessions := [mkSess 2 7 12 20, mkSess 3 7 13 30] } ∧
    (TokenService.createSession cfgW stateC1 7 devW none).2.sessions.all
        (fun r => !(r.id == 1)) = true ∧
    (TokenService.createSession cfgW stateC1 7 devW none).2.sessions.length = 3 := by
  decide

/-- Claim C3 counterexample: a valid-credential login for a user already
holding 3 non-marked sessions does return the max-sessions outcome with no
mutation, but the session list it carries is empty rather than containing
the user's 3 current sessions. -/
theorem login_at_limit_carries_empty_list :
    AuthService.login cfgW stateC3 "u" "pw" devW = (.error (.maxSessions [] 7), stateC3) ∧
    TokenService.getActiveSessions stateC3 7 = 3 ∧
    ([] : List Session).length ≠ 3 := by
  decide

/-- Claim C3 (amended): for a user with valid credentials whose non-marked
session count is at or over MAX_SESSIONS_PER_USER, login returns the
MaxSessionsReached outcome carrying the user's id and an empty session
list (the source deliberately passes an empty array), and it leaves the
storage unchanged: no Session row and no RefreshToken row is created. -/
theorem login_at_limit_creates_no_rows (cfg : AuthConfig) (s : Storage)
    (username password : String) (d : DeviceInfo) (user : UserRow)
    (hfind : UserModel.findByUsername s username = some user)
    (hactive : user.isActive = true)
    (hpw : UserModel.verifyPassword user password = true)
    (hlimit : cfg.maxSessionsPerUser ≤ TokenService.getActiveSessions s user.id) :
    AuthService.login cfg s username password d
      = (.error (.maxSessions [] user.id), s) := by
  unfold AuthService.login
  rw [hfind]
  simp [hactive, hpw, hlimit]

/-- Witness for the amended Claim C3, on the Scenario A fixture. -/
theorem login_at_limit_creates_no_rows_witness :
    AuthService.login cfgW stateC3 "u" "pw" devW = (.error (.maxSessions [] 7), stateC3) :=
  login_at_limit_creates_no_rows cfgW stateC3 "u" "pw" devW userW (by decide) (by decide)
    (by decide) (by decide)

/-- Claim C4 (code_bug evaluation): a correctly signed access token whose
embedded expiry (50) has passed at clock 1000 is rejected by verifyToken
with the invalid-token error rather than the token-expired error, because
the catch tests the JsonWebTokenError superclass first; the middleware
therefore never reaches its expired-token branch, and no session row
becomes marked for deletion. -/
theorem expired_token_rejected_as_invalid :
    TokenService.verifyToken cfgW stateC4 expiredTokW false
      = (.error .invalidToken, stateC4) ∧
    authenticateToken cfgW stateC4 expiredTokW false
      = (.error .invalidToken, stateC4) ∧
    stateC4.sessions.all (fun r => !r.isMarkedForDeletion) = true := by
  decide

/-- Claim C7 counterexample: logout(7, 11) on a state holding the matching
session and refresh rows reports success, and the matching Session row is
removed outright -- the resulting session table is empty, so the row is not
retained in a marked-for-deletion state as the claim requires. -/
theorem logout_removes_session_row :
    (TokenService.logout cfgW stateC7 7 11).1 = .ok () ∧
    (TokenService.logout cfgW stateC7 7 11).2.sessions = [] := by
  decide

/-- The revocation UPDATE of logout preserves the token id. -/
theorem TokenService.revokeIfUserToken_tokenId (userId tokenId : Nat) (r : RefreshTokenRow) :
    (TokenService.revokeIfUserToken userId tokenId r).tokenId = r.tokenId := by
  unfold TokenService.revokeIfUserToken
  split <;> rfl

/-- Under the 1:1 linkage (every refresh row with the tokenId belongs to
the user), logout revokes every refresh row carrying the tokenId. -/
theorem revoked_after_logout_map (userId tokenId : Nat) (l : List RefreshTokenRow)
    (howner : ∀ r ∈ l, r.tokenId = tokenId → r.userId = userId) :
    ∀ r ∈ l.map (TokenService.revokeIfUserToken userId tokenId),
      r.tokenId = tokenId → r.isRevoked = true := by
  intro r hr htid
  obtain ⟨b, hb, rfl⟩ := List.mem_map.mp hr
  have hbt : b.tokenId = tokenId := by
    rw [← TokenService.revokeIfUserToken_tokenId userId tokenId b]
    exact htid
  have hbu : b.userId = userId := howner b hb hbt
  unfold TokenService.revokeIfUserToken
  rw [if_pos (by simp [hbu, hbt])]

/-- When some refresh row carries the tokenId and every such row belongs
to the user, the logout transaction commits: the user's session rows with
the tokenId are hard-deleted and the matching refresh rows revoked. -/
theorem logout_ok_of_refresh_row (cfg : AuthConfig) (s : Storage) (userId tokenId : Nat)
    (hexists : ∃ r ∈ s.refreshTokens, r.tokenId = tokenId)
    (howner : ∀ r ∈ s.refreshTokens, r.tokenId = tokenId → r.userId = userId) :
    TokenService.logout cfg s userId tokenId =
      (.ok (), { s with
        sessions := s.sessions.filter
          (fun r => !(r.userId == userId && r.tokenId == tokenId)),
        refreshTokens := s.refreshTokens.map (TokenService.revokeIfUserToken userId tokenId) }) := by
  cases hfa : (s.refreshTokens.map (TokenService.revokeIfUserToken userId tokenId)).find?
      (fun r => r.tokenId == tokenId) with
  | none =>
    exfalso
    obtain ⟨b, hb, hbt⟩ := hexists
    have hmem := List.find?_eq_none.mp hfa (TokenService.revokeIfUserToken userId tokenId b)
      (List.mem_map.mpr ⟨b, hb, rfl⟩)
    exact hmem (by rw [beq_iff_eq, TokenService.revokeIfUserToken_tokenId]; exact hbt)
  | some a =>
    have pa := List.find?_some hfa
    have ma := List.mem_of_find?_eq_some hfa
    obtain ⟨b, hb, rfl⟩ := List.mem_map.mp ma
    have hbt : b.tokenId = tokenId := by
      rw [← TokenService.revokeIfUserToken_tokenId userId tokenId b]
      exact beq_iff_eq.mp pa
    have hbu : b.userId = userId := howner b hb hbt
    have hrev : (TokenService.revokeIfUserToken userId tokenId b).isRevoked = true := by
      unfold TokenService.revokeIfUserToken
      rw [if_pos (by simp [hbu, hbt])]
    show (match (s.refreshTokens.map (TokenService.revokeIfUserToken userId tokenId)).find?
        (fun r => r.tokenId == tokenId) with
      | some r => if r.isRevoked then
          ((Except.ok () : Except AuthErr Unit), { s with
            sessions := s.sessions.filter
              (fun r => !(r.userId == userId && r.tokenId == tokenId)),
            refreshTokens := s.refreshTokens.map (TokenService.revokeIfUserToken userId tokenId) })
          else (Except.error AuthErr.revokeVerifyFailed, s)
      | none => (Except.error AuthErr.revokeVerifyFailed, s))
      = (.ok (), { s with
          sessions := s.sessions.filter
            (fun r => !(r.userId == userId && r.tokenId == tokenId)),
          refreshTokens := s.refreshTokens.map (TokenService.revokeIfUserToken userId tokenId) })
    rw [hfa]
    simp only [hrev, if_true]

/-- Claim C7 (amended): within one atomic unit, logout hard-deletes (not
merely marks) the user's Session rows carrying the tokenId and sets
isRevoked on the matching RefreshToken rows; the handler's defensive
double-check then re-reads the state and raises an internal alert exactly
when a session with the tokenId still exists, while the user-visible
response still reports success (HTTP 200). -/
theorem logout_hard_deletes_and_revokes (cfg : AuthConfig) (s : Storage)
    (userId tokenId : Nat)
    (hexists : ∃ r ∈ s.refreshTokens, r.tokenId = tokenId)
    (howner : ∀ r ∈ s.refreshTokens, r.tokenId = tokenId → r.userId = userId) :
    (handleLogout cfg s userId tokenId).1.status = 200 ∧
    (handleLogout cfg s userId tokenId).1.success = true ∧
    (handleLogout cfg s userId tokenId).2.sessions
      = s.sessions.filter (fun r => !(r.userId == userId && r.tokenId == tokenId)) ∧
    (∀ r ∈ (handleLogout cfg s userId tokenId).2.refreshTokens,
        r.tokenId = tokenId → r.isRevoked = true) ∧
    (handleLogout cfg s userId tokenId).1.alertLogged
      = TokenService.isSessionValid (handleLogout cfg s userId tokenId).2 tokenId := by
  have hlog := logout_ok_of_refresh_row cfg s userId tokenId hexists howner
  refine ⟨?_, ?_, ?_, ?_, ?_⟩
  · unfold handleLogout
    rw [hlog]
  · unfold handleLogout
    rw [hlog]
  · unfold handleLogout
    rw [hlog]
  · unfold handleLogout
    rw [hlog]
    exact revoked_after_logout_map userId tokenId s.refreshTokens howner
  · unfold handleLogout
    rw [hlog]
    exact Bool.or_false _

/-- Witness for the amended Claim C7, on the single-session fixture. -/
theorem logout_hard_deletes_and_revokes_witness :
    (handleLogout cfgW stateC7 7 11).1.status = 200 ∧
    (handleLogout cfgW stateC7 7 11).1.success = true ∧
    (handleLogout cfgW stateC7 7 11).2.sessions
      = stateC7.sessions.filter (fun r => !(r.userId == 7 && r.tokenId == 11)) ∧
    (∀ r ∈ (handleLogout cfgW stateC7 7 11).2.refreshTokens,
        r.tokenId = 11 → r.isRevoked = true) ∧
    (handleLogout cfgW stateC7 7 11).1.alertLogged
      = TokenService.isSessionValid (handleLogout cfgW stateC7 7 11).2 11 :=
  logout_hard_deletes_and_revokes cfgW stateC7 7 11 (by decide) (by decide)

/-- Claim C8 (code_bug evaluation): pre-login termination of session 10
succeeds, hard-deletes the Session row and reports 0 remaining sessions,
but the session's RefreshToken row in the refresh-token store
(refresh_tokens_wa) survives untouched, because the DELETE names the
legacy refresh_tokens table instead. -/
theorem prelogin_termination_leaves_refresh_row :
    (terminatePreLoginSession stateC8 7 10).1
      = { success := true, status := 200, remainingSessions := some 0 } ∧
    (terminatePreLoginSession stateC8 7 10).2.sessions = [] ∧
    (terminatePreLoginSession stateC8 7 10).2.refreshTokens = stateC8.refreshTokens ∧
    stateC8.refreshTokens.any (fun r => r.tokenId == 20 && !r.isRevoked) = true := by
  decide

/-- Claim C9 counterexample: issuing a token pair and then verifying the
access token succeeds, yet the session's activityCount stays 0 instead of
being incremented to 1 -- the activity update writes last_active only. -/
theorem verify_leaves_activity_count_at_zero :
    (TokenService.verifyToken cfgW (TokenService.generateTokens cfgW stateC9 7 devW).2
        (TokenService.generateTokens cfgW stateC9 7 devW).1.token false).1
      = .ok ⟨7, 100⟩ ∧
    ((TokenService.verifyToken cfgW (TokenService.generateTokens cfgW stateC9 7 devW).2
        (TokenService.generateTokens cfgW stateC9 7 devW).1.token false).2.sessions.map
      (fun r => r.activityCount)) = [0] ∧
    ¬ ([(0 : Nat)] = [0 + 1]) := by
  decide

/-- Claim C9 (amended): on every successful verify, when the activity
update succeeds it rewrites only last_active (to the current clock) on the
sessions carrying the decoded tokenId; activity counts are never changed;
and a failing activity update is swallowed: the verify result is identical
and the storage is left untouched. -/
theorem verify_updates_last_active_never_blocks (cfg : AuthConfig) (s : Storage) (t : Jwt)
    (fail : Bool) (decoded : TokenPayload) (s' : Storage)
    (h : TokenService.verifyToken cfg s t fail = (.ok decoded, s')) :
    (TokenService.verifyToken cfg s t (!fail)).1 = .ok decoded ∧
    (fail = true → s' = s) ∧
    (fail = false → s'.sessions = s.sessions.map (fun (r : Session) =>
        if r.tokenId == decoded.tokenId then { r with lastActive := s.now } else r)) ∧
    s'.sessions.map (fun r => r.activityCount) = s.sessions.map (fun r => r.activityCount) := by
  unfold TokenService.verifyToken at h
  cases hv : jwtVerify t cfg.jwtSecret s.now with
  | error e =>
    rw [hv] at h
    simp [JwtError.isJsonWebTokenError] at h
  | ok p =>
    rw [hv] at h
    have h2 : (match List.find?
          (fun r => r.tokenId == p.tokenId && r.userId == p.userId) s.sessions with
        | none => ((Except.error AuthErr.sessionNotFound : Except AuthErr TokenPayload), s)
        | some _ => (Except.ok p, TokenService.updateSessionActivity s p.tokenId fail))
        = ((Except.ok decoded : Except AuthErr TokenPayload), s') := h
    cases hf : s.sessions.find?
        (fun r => r.tokenId == p.tokenId && r.userId == p.userId) with
    | none => rw [hf] at h2; simp at h2
    | some a =>
      rw [hf] at h2
      simp only [Prod.mk.injEq] at h2
      obtain ⟨h1, h3⟩ := h2
      have hpd : p = decoded := Except.ok.inj h1
      subst hpd
      subst h3
      refine ⟨?_, ?_, ?_, ?_⟩
      · unfold TokenService.verifyToken
        rw [hv]
        simp only [hf]
      · intro hfail
        subst hfail
        rfl
      · intro hfail
        subst hfail
        rfl
      · cases fail with
        | true => rfl
        | false =>
          show (List.map _ (List.map _ s.sessions)) = _
          rw [List.map_map]
          refine List.map_congr_left ?_
          intro r _
          simp only [Function.comp_apply]
          split <;> rfl

/-- Witness for the amended Claim C9, on the issuance fixture. -/
theorem verify_updates_last_active_never_blocks_witness :
    (TokenService.verifyToken cfgW (TokenService.generateTokens cfgW stateC9 7 devW).2
        (TokenService.generateTokens cfgW stateC9 7 devW).1.token (!false)).1
      = .ok ⟨7, 100⟩ ∧
    (false = true →
      (TokenService.verifyToken cfgW (TokenService.generateTokens cfgW stateC9 7 devW).2
          (TokenService.generateTokens cfgW stateC9 7 devW).1.token false).2
        = (TokenService.generateTokens cfgW stateC9 7 devW).2) ∧
    (false = false →
      (TokenService.verifyToken cfgW (TokenService.generateTokens cfgW stateC9 7 devW).2
          (TokenService.generateTokens cfgW stateC9 7 devW).1.token false).2.sessions
        = (TokenService.generateTokens cfgW stateC9 7 devW).2.sessions.map
            (fun (r : Session) =>
              if r.tokenId == (100 : Nat)
              then { r with lastActive := (TokenService.generateTokens cfgW stateC9 7 devW).2.now }
              else r)) ∧
    (TokenService.verifyToken cfgW (TokenService.generateTokens cfgW stateC9 7 devW).2
        (TokenService.generateTokens cfgW stateC9 7 devW).1.token false).2.sessions.map
      (fun r => r.activityCount)
      = (TokenService.generateTokens cfgW stateC9 7 devW).2.sessions.map
          (fun r => r.activityCount) :=
  verify_updates_last_active_never_blocks cfgW
    (TokenService.generateTokens cfgW stateC9 7 devW).2
    (TokenService.generateTokens cfgW stateC9 7 devW).1.token false ⟨7, 100⟩
    (TokenService.verifyToken cfgW (TokenService.generateTokens cfgW stateC9 7 devW).2
        (TokenService.generateTokens cfgW stateC9 7 devW).1.token false).2
    (by decide)

/-- Unfolding equation for generateTokens: run the limit check, insert the
session and refresh rows, and return the signed pair over the fresh tokenId. -/
theorem generateTokens_eq (cfg : AuthConfig) (s : Storage) (userId : Nat) (d : DeviceInfo) :
    TokenService.generateTokens cfg s userId d =
      (let E := TokenService.enforceSessionLimit cfg s userId
       ({ token := { payload := ⟨userId, E.nextId⟩, exp := E.now + cfg.tokenExpiration,
                     secret := cfg.jwtSecret },
          refreshToken := { payload := ⟨userId, E.nextId⟩,
                            exp := E.now + cfg.refreshTokenExpiration,
                            secret := cfg.jwtSecret },
          sessionId := E.nextId },
        { E with sessions := E.sessions ++ [issuedSessionRow cfg s userId d],
                 refreshTokens := E.refreshTokens ++ [issuedRefreshRow cfg s userId],
                 nextId := E.nextId + 3 })) := rfl

/-- A verify call with a matching secret, unexpired token and a session row
carrying the embedded ids succeeds with exactly the embedded payload. -/
theorem verifyToken_ok (cfg : AuthConfig) (s : Storage) (t : Jwt) (fail : Bool)
    (hsec : t.secret = cfg.jwtSecret) (hexp : s.now < t.exp)
    (hsess : ∃ r ∈ s.sessions,
        r.tokenId = t.payload.tokenId ∧ r.userId = t.payload.userId) :
    (TokenService.verifyToken cfg s t fail).1 = .ok t.payload := by
  have hv : jwtVerify t cfg.jwtSecret s.now = .ok t.payload := by
    unfold jwtVerify
    rw [if_neg (by simp [hsec]), if_neg (by omega)]
  unfold TokenService.verifyToken
  rw [hv]
  cases hf : List.find?
      (fun r => r.tokenId == t.payload.tokenId && r.userId == t.payload.userId)
      s.sessions with
  | none =>
    exfalso
    obtain ⟨r, hr, h1, h2⟩ := hsess
    exact absurd (by simp [h1, h2]) (List.find?_eq_none.mp hf r hr)
  | some a =>
    simp only [hf]

/-- Claim C6: issuing a token pair and immediately verifying the returned
access token (no intervening mutation, positive access-token lifetime)
succeeds and returns exactly the userId and tokenId (the reported
sessionId) that were used to create the session, whether or not the
asynchronous activity update fails. -/
theorem issue_then_verify_roundtrip (cfg : AuthConfig) (s : Storage) (userId : Nat)
    (d : DeviceInfo) (fail : Bool) (hpos : 0 < cfg.tokenExpiration) :
    (TokenService.verifyToken cfg (TokenService.generateTokens cfg s userId d).2
        (TokenService.generateTokens cfg s userId d).1.token fail).1
      = .ok ⟨userId, (TokenService.generateTokens cfg s userId d).1.sessionId⟩ := by
  refine verifyToken_ok cfg (TokenService.generateTokens cfg s userId d).2
    (TokenService.generateTokens cfg s userId d).1.token fail rfl ?_ ?_
  · show (TokenService.enforceSessionLimit cfg s userId).now
      < (TokenService.enforceSessionLimit cfg s userId).now + cfg.tokenExpiration
    omega
  · refine ⟨issuedSessionRow cfg s userId d, ?_, rfl, rfl⟩
    show _ ∈ (TokenService.enforceSessionLimit cfg s userId).sessions
        ++ [issuedSessionRow cfg s userId d]
    exact List.mem_append_right _ (List.mem_singleton_self _)

/-- Witness for Claim C6, on the empty-storage fixture. -/
theorem issue_then_verify_roundtrip_witness :
    (TokenService.verifyToken cfgW (TokenService.generateTokens cfgW stateC9 7 devW).2
        (TokenService.generateTokens cfgW stateC9 7 devW).1.token true).1
      = .ok ⟨7, (TokenService.generateTokens cfgW stateC9 7 devW).1.sessionId⟩ :=
  issue_then_verify_roundtrip cfgW stateC9 7 devW true (by decide)

/-- A refresh call fails with the invalid-refresh-token error and rolls
back whenever every stored row for the token's tokenId is revoked or past
expiry (in particular when no such row exists). -/
theorem refresh_invalid_of_rows_dead (cfg : AuthConfig) (s : Storage) (t : Jwt)
    (h : ∀ r ∈ s.refreshTokens, r.tokenId = t.payload.tokenId →
        r.isRevoked = true ∨ r.expiresAt ≤ s.now) :
    TokenService.refreshAccessToken cfg s t = (.error .invalidRefreshToken, s) := by
  have hval : TokenService.isRefreshTokenValid cfg s t = false := by
    unfold TokenService.isRefreshTokenValid
    cases hv : jwtVerify t cfg.jwtSecret s.now with
    | error e => rfl
    | ok p =>
      have hp := jwtVerify_ok_payload hv
      subst hp
      show s.refreshTokens.any (fun r =>
          r.tokenId == t.payload.tokenId && !r.isRevoked
            && decide (s.now < r.expiresAt)) = false
      rw [List.any_eq_false]
      intro r hr
      simp only [Bool.and_eq_true, beq_iff_eq, Bool.not_eq_true',
        decide_eq_true_eq, not_and]
      intro hand
      obtain ⟨htid, hrev⟩ := hand
      rcases h r hr htid with h3 | h3
      · exact absurd h3 (by simp [hrev])
      · omega
  unfold TokenService.refreshAccessToken
  rw [hval]
  rfl

/-- After the revocation update, every refresh row carrying the tokenId is
revoked. -/
theorem revokeRefreshRows_all (s : Storage) (tid : Nat) :
    ∀ r ∈ (TokenService.revokeRefreshRows s tid).refreshTokens,
      r.tokenId = tid → r.isRevoked = true := by
  intro r hr htid
  simp only [TokenService.revokeRefreshRows, List.mem_map] at hr
  obtain ⟨b, hb, rfl⟩ := hr
  by_cases hc : (b.tokenId == tid) = true
  · simp [hc]
  · rw [if_neg hc] at htid ⊢
    exact absurd (beq_iff_eq.mpr htid) hc

/-- A successful refreshAccessToken is a successful rotateTokens. -/
theorem refreshAccessToken_ok_inv (cfg : AuthConfig) (s : Storage) (t : Jwt)
    (res : TokenResponse) (s' : Storage)
    (h : TokenService.refreshAccessToken cfg s t = (.ok res, s')) :
    TokenService.rotateTokens cfg s t = (.ok res, s') := by
  unfold TokenService.refreshAccessToken at h
  cases hval : TokenService.isRefreshTokenValid cfg s t with
  | true => rw [if_neg (by simp [hval])] at h; exact h
  | false =>
    rw [if_pos (by simp [hval])] at h
    exact absurd (congrArg Prod.fst h) (by simp)

/-- Inversion of a successful rotation: the stored row was live, a session
carrying the embedded tokenId existed, the result is the freshly generated
pair over that session's device metadata, and the final state is the
generated state with the old refresh rows revoked. -/
theorem rotateTokens_ok_inv (cfg : AuthConfig) (s : Storage) (t : Jwt)
    (res : TokenResponse) (s' : Storage)
    (h : TokenService.rotateTokens cfg s t = (.ok res, s')) :
    ∃ sess, s.sessions.find? (fun r => r.tokenId == t.payload.tokenId) = some sess ∧
      res = (TokenService.generateTokens cfg s t.payload.userId
        { type := sess.deviceType, name := sess.deviceName, browser := sess.browser,
          os := sess.os, ip := sess.lastIp }).1 ∧
      s' = TokenService.revokeRefreshRows
        ((TokenService.generateTokens cfg s t.payload.userId
          { type := sess.deviceType, name := sess.deviceName, browser := sess.browser,
            os := sess.os, ip := sess.lastIp }).2) t.payload.tokenId := by
  unfold TokenService.rotateTokens at h
  cases hv : jwtVerify t cfg.jwtSecret s.now with
  | error e => rw [hv] at h; simp at h
  | ok p =>
    rw [hv] at h
    have hp := jwtVerify_ok_payload hv
    subst hp
    cases hval : TokenService.isRefreshTokenValid cfg s t with
    | false => simp [hval] at h
    | true =>
      simp only [hval, Bool.not_true] at h
      cases hf : s.sessions.find? (fun r => r.tokenId == t.payload.tokenId) with
      | none => simp [hf] at h
      | some sess =>
        simp only [hf, if_false, Bool.false_eq_true] at h
        simp only [Prod.mk.injEq] at h
        obtain ⟨h1, h2⟩ := h
        exact ⟨sess, rfl, (Except.ok.inj h1).symm, h2.symm⟩

/-- Claim C2: a refresh token value is successfully rotated at most once.
(i) A rotate whose stored rows for the embedded tokenId are all revoked or
expired, or absent, fails with the invalid-refresh-token error, returning
no new pair and leaving storage unchanged; (ii) after any successful
rotate, a second rotate with the same refresh token at any later clock
fails in exactly that way. -/
theorem refresh_token_rotated_at_most_once (cfg : AuthConfig) (s : Storage) (t : Jwt) :
    ((∀ r ∈ s.refreshTokens, r.tokenId = t.payload.tokenId →
        r.isRevoked = true ∨ r.expiresAt ≤ s.now) →
      TokenService.refreshAccessToken cfg s t = (.error .invalidRefreshToken, s)) ∧
    (∀ res s' n₂, TokenService.refreshAccessToken cfg s t = (.ok res, s') →
      TokenService.refreshAccessToken cfg { s' with now := n₂ } t
        = (.error .invalidRefreshToken, { s' with now := n₂ })) := by
  constructor
  · exact refresh_invalid_of_rows_dead cfg s t
  · intro res s' n₂ h
    obtain ⟨sess, hfind, hres, hs'⟩ := rotateTokens_ok_inv cfg s t res s'
      (refreshAccessToken_ok_inv cfg s t res s' h)
    refine refresh_invalid_of_rows_dead cfg _ t ?_
    intro r hr htid
    left
    subst hs'
    exact revokeRefreshRows_all _ _ r hr htid

/-- Witness for Claim C2: conjunct (i) on a state whose only row for the
tokenId is revoked; conjunct (ii) on the state produced by a successful
rotation, observed at clock 2000. -/
theorem refresh_token_rotated_at_most_once_witness :
    TokenService.refreshAccessToken cfgW stateC2dead rotTokW
      = (.error .invalidRefreshToken, stateC2dead) ∧
    TokenService.refreshAccessToken cfgW rotNext rotTokW
      = (.error .invalidRefreshToken, rotNext) :=
  ⟨(refresh_token_rotated_at_most_once cfgW stateC2dead rotTokW).1 (by decide),
   (refresh_token_rotated_at_most_once cfgW stateRot rotTokW).2
     (TokenService.generateTokens cfgW stateRot 7 devW).1
     (TokenService.refreshAccessToken cfgW stateRot rotTokW).2 2000 (by decide)⟩

/-- Claim C10 (amended): for a user strictly below MAX_SESSIONS_PER_USER
(so the limit check inside session creation does not evict), a successful
rotation appends exactly one brand-new unmarked session row carrying the
returned fresh sessionId, leaves every pre-existing session row -- the old
session included -- in place unmarked, revokes every refresh row of the old
tokenId, and raises the user's non-marked session count by one.  At or
over the limit this fails: the limit check evicts the least-recently-active
session, as the counterexample shows. -/
theorem rotation_below_limit_adds_fresh_session (cfg : AuthConfig) (s : Storage) (t : Jwt)
    (res : TokenResponse) (s' : Storage)
    (hsucc : TokenService.refreshAccessToken cfg s t = (.ok res, s'))
    (hcnt : (s.sessions.filter (fun r => r.userId == t.payload.userId)).length
        < cfg.maxSessionsPerUser)
    (hfresh : ∀ sess ∈ s.sessions, sess.tokenId ≠ s.nextId) :
    (∃ newSess,
        s'.sessions = s.sessions ++ [newSess] ∧
        newSess.tokenId = res.sessionId ∧
        newSess.userId = t.payload.userId ∧
        newSess.isMarkedForDeletion = false ∧
        ∀ sess ∈ s.sessions, sess.tokenId ≠ newSess.tokenId) ∧
    (∀ r ∈ s'.refreshTokens, r.tokenId = t.payload.tokenId → r.isRevoked = true) ∧
    TokenService.getActiveSessions s' t.payload.userId
      = TokenService.getActiveSessions s t.payload.userId + 1 := by
  obtain ⟨sess, hfind, hres, hs'⟩ := rotateTokens_ok_inv cfg s t res s'
    (refreshAccessToken_ok_inv cfg s t res s' hsucc)
  have hE := enforceSessionLimit_under cfg s t.payload.userId hcnt
  have hsessions : s'.sessions = s.sessions ++
      [issuedSessionRow cfg s t.payload.userId
        { type := sess.deviceType, name := sess.deviceName, browser := sess.browser,
          os := sess.os, ip := sess.lastIp }] := by
    rw [hs']
    show ((TokenService.generateTokens cfg s t.payload.userId _).2).sessions = _
    rw [generateTokens_eq]
    simp only [hE]
  have hrowTid : (issuedSessionRow cfg s t.payload.userId
      { type := sess.deviceType, name := sess.deviceName, browser := sess.browser,
        os := sess.os, ip := sess.lastIp }).tokenId = s.nextId := by
    simp only [issuedSessionRow, hE]
  refine ⟨⟨issuedSessionRow cfg s t.payload.userId
      { type := sess.deviceType, name := sess.deviceName, browser := sess.browser,
        os := sess.os, ip := sess.lastIp }, hsessions, ?_, ?_, rfl, ?_⟩, ?_, ?_⟩
  · rw [hres, generateTokens_eq]
    simp only [issuedSessionRow]
  · rfl
  · intro x hx
    rw [hrowTid]
    exact hfresh x hx
  · intro r hr htid
    rw [hs'] at hr
    exact revokeRefreshRows_all _ _ r hr htid
  · unfold TokenService.getActiveSessions
    rw [hsessions, List.filter_append, List.length_append]
    have : (List.filter
        (fun r => r.userId == t.payload.userId && !r.isMarkedForDeletion)
        [issuedSessionRow cfg s t.payload.userId
          { type := sess.deviceType, name := sess.deviceName, browser := sess.browser,
            os := sess.os, ip := sess.lastIp }]).length = 1 := by
      simp [issuedSessionRow]
    omega

/-- Witness for the amended Claim C10, on the below-limit fixture. -/
theorem rotation_below_limit_adds_fresh_session_witness :
    (∃ newSess,
        (TokenService.refreshAccessToken cfgW stateRot rotTokW).2.sessions
          = stateRot.sessions ++ [newSess] ∧
        newSess.tokenId = (TokenService.generateTokens cfgW stateRot 7 devW).1.sessionId ∧
        newSess.userId = rotTokW.payload.userId ∧
        newSess.isMarkedForDeletion = false ∧
        ∀ sess ∈ stateRot.sessions, sess.tokenId ≠ newSess.tokenId) ∧
    (∀ r ∈ (TokenService.refreshAccessToken cfgW stateRot rotTokW).2.refreshTokens,
        r.tokenId = rotTokW.payload.tokenId → r.isRevoked = true) ∧
    TokenService.getActiveSessions
        (TokenService.refreshAccessToken cfgW stateRot rotTokW).2 rotTokW.payload.userId
      = TokenService.getActiveSessions stateRot rotTokW.payload.userId + 1 :=
  rotation_below_limit_adds_fresh_session cfgW stateRot rotTokW
    (TokenService.generateTokens cfgW stateRot 7 devW).1
    (TokenService.refreshAccessToken cfgW stateRot rotTokW).2
    (by decide) (by decide) (by decide)

/-- Claim C10 counterexample: rotating the refresh token of session 1 for a
user already holding MAX_SESSIONS_PER_USER = 3 sessions succeeds, yet the
old session row (id 1, the least recently active) is deleted by the limit
check inside session creation and the non-marked session count stays 3
instead of increasing by one. -/
theorem rotation_at_limit_evicts_old_session :
    (TokenService.refreshAccessToken cfgW stateC10 rotTokW).1
      = .ok (TokenService.generateTokens cfgW stateC10 7 devW).1 ∧
    (TokenService.refreshAccessToken cfgW stateC10 rotTokW).2.sessions.all
        (fun r => !(r.id == 1)) = true ∧
    TokenService.getActiveSessions (TokenService.refreshAccessToken cfgW stateC10 rotTokW).2 7
      = 3 ∧
    TokenService.getActiveSessions stateC10 7 = 3 := by
  decide

/-- After a cleanup pass, no surviving session row is marked for deletion. -/
theorem cleanup_sessions_unmarked (s : Storage) :
    ∀ sess ∈ (SessionManager.cleanup s).2.sessions, sess.isMarkedForDeletion = false := by
  intro sess hmem
  simp only [SessionManager.cleanup] at hmem
  rw [List.mem_filter] at hmem
  obtain ⟨h1, -⟩ := hmem
  rw [List.mem_filter] at h1
  obtain ⟨-, h2⟩ := h1
  simpa using h2

/-- After a cleanup pass, every refresh row past the pass's clock is revoked. -/
theorem cleanup_tokens_settled (s : Storage) :
    ∀ r ∈ (SessionManager.cleanup s).2.refreshTokens,
      r.expiresAt < s.now → r.isRevoked = true := by
  intro r hr hexp
  simp only [SessionManager.cleanup] at hr
  rw [List.mem_map] at hr
  obtain ⟨b, hb, rfl⟩ := hr
  by_cases hc : (decide (b.expiresAt < s.now) && !b.isRevoked) = true
  · rw [if_pos hc]
  · rw [if_neg hc] at hexp ⊢
    simp only [Bool.and_eq_true, decide_eq_true_eq, Bool.not_eq_true', not_and] at hc
    have := hc hexp
    simpa using this

/-- After a cleanup pass, every surviving session row has only live,
unrevoked refresh rows for its tokenId. -/
theorem cleanup_sessions_live_tokens (s : Storage) :
    ∀ sess ∈ (SessionManager.cleanup s).2.sessions,
      ∀ r ∈ (SessionManager.cleanup s).2.refreshTokens,
        r.tokenId = sess.tokenId → r.isRevoked = false ∧ ¬(r.expiresAt < s.now) := by
  intro sess hs r hr htid
  simp only [SessionManager.cleanup] at hs hr
  rw [List.mem_filter] at hs
  obtain ⟨-, h2⟩ := hs
  rw [Bool.not_eq_eq_eq_not, Bool.not_true, List.any_eq_false] at h2
  have h3 := h2 r hr
  simp only [Bool.and_eq_true, beq_iff_eq, Bool.or_eq_true, decide_eq_true_eq,
    not_and, not_or] at h3
  have h4 := h3 htid
  exact ⟨by simpa using h4.1, h4.2⟩

/-- Claim C5: cleanup is idempotent.  A second cleanup run on the state a
first run produced, with no intervening writes and no refresh token newly
crossing its expiry between the two runs, reports zero deletions and zero
revocations: expiredTokens, expiredSessions and markedSessions are all 0. -/
theorem cleanup_idempotent (s : Storage) (n₂ : Nat)
    (hnocross : ∀ r ∈ (SessionManager.cleanup s).2.refreshTokens,
        r.expiresAt < n₂ → r.expiresAt < s.now) :
    (SessionManager.cleanup
        { (SessionManager.cleanup s).2 with now := n₂ }).1.expiredTokens = 0 ∧
    (SessionManager.cleanup
        { (SessionManager.cleanup s).2 with now := n₂ }).1.expiredSessions = 0 ∧
    (SessionManager.cleanup
        { (SessionManager.cleanup s).2 with now := n₂ }).1.markedSessions = 0 := by
  have hunmarked := cleanup_sessions_unmarked s
  have hsettled := cleanup_tokens_settled s
  have hlive := cleanup_sessions_live_tokens s
  have hnoexp : ∀ r ∈ (SessionManager.cleanup s).2.refreshTokens,
      r.expiresAt < n₂ → r.isRevoked = true :=
    fun r hr h => hsettled r hr (hnocross r hr h)
  set S := (SessionManager.cleanup s).2 with hS
  simp only [SessionManager.cleanup]
  refine ⟨?_, ?_, ?_⟩
  · rw [List.length_eq_zero, List.filter_eq_nil_iff]
    intro r hr
    simp only [Bool.and_eq_true, decide_eq_true_eq, Bool.not_eq_true', not_and]
    intro hlt
    simp [hnoexp r hr hlt]
  · rw [List.length_eq_zero, List.filter_eq_nil_iff]
    intro sess hsess
    have hsS : sess ∈ S.sessions := (List.mem_filter.mp hsess).1
    rw [List.any_eq_true]
    rintro ⟨r, hrm, hrp⟩
    obtain ⟨b, hbm, rfl⟩ := List.mem_map.mp hrm
    have hb2 : (if decide (b.expiresAt < n₂) && !b.isRevoked
        then { b with isRevoked := true } else b) = b := by
      apply if_neg
      simp only [Bool.and_eq_true, decide_eq_true_eq, Bool.not_eq_true', not_and]
      intro hlt
      simp [hnoexp b hbm hlt]
    rw [hb2] at hrp
    simp only [Bool.and_eq_true, beq_iff_eq, Bool.or_eq_true, decide_eq_true_eq] at hrp
    obtain ⟨htid, hcase⟩ := hrp
    obtain ⟨hrev, hexp⟩ := hlive sess hsS b hbm htid
    rcases hcase with h | h
    · exact absurd h (by simp [hrev])
    · exact hexp (hnocross b hbm h)
  · rw [List.length_eq_zero, List.filter_eq_nil_iff]
    intro sess hs
    simp [hunmarked sess hs]

/-- Witness for Claim C5: a state exercising all three phases, with the
second run at clock 1500. -/
theorem cleanup_idempotent_witness :
    (SessionManager.cleanup
        { (SessionManager.cleanup stateC5).2 with now := 1500 }).1.expiredTokens = 0 ∧
    (SessionManager.cleanup
        { (SessionManager.cleanup stateC5).2 with now := 1500 }).1.expiredSessions = 0 ∧
    (SessionManager.cleanup
        { (SessionManager.cleanup stateC5).2 with now := 1500 }).1.markedSessions = 0 :=
  cleanup_idempotent stateC5 1500 (by decide)

end WealthArc
